import Mathlib

/-!
Verification of the colorbrew color library: a shallow embedding of the
conversion, parsing, manipulation, contrast, colorblind-simulation and
temperature modules, with theorems settling the specification claims.

Python floats are modelled by exact arithmetic: `ℚ` where only field
operations and rounding occur, `ℝ` where the sRGB gamma power `x ** 2.4`
appears.  Python's `round` (round-half-to-even) is modelled by `pyRound`.
All declarations are grouped as definitions first, then theorems.
-/

namespace Colorbrew

/-- An RGB value as stored by the library: a triple of Python ints. -/
abbrev RGB := ℤ × ℤ × ℤ

/-- All three channels lie in `[0, 255]`. -/
def inRange (c : RGB) : Prop :=
  0 ≤ c.1 ∧ c.1 ≤ 255 ∧ 0 ≤ c.2.1 ∧ c.2.1 ≤ 255 ∧ 0 ≤ c.2.2 ∧ c.2.2 ≤ 255

/-- Python's built-in `round`: round to the nearest integer,
ties going to the even neighbour (banker's rounding). -/
def pyRound {α : Type} [LinearOrderedField α] [FloorRing α] (x : α) : ℤ :=
  if x - (⌊x⌋ : α) = 1 / 2 then (if Even ⌊x⌋ then ⌊x⌋ else ⌊x⌋ + 1) else round x

/-- Python's `%` on floats with a positive right operand:
`a - b * floor (a / b)`. -/
def qmod (a b : ℚ) : ℚ := a - b * (⌊a / b⌋ : ℚ)

/-! ### converters.py -/

/-- `converters.rgb_to_hsl`: RGB integers to an `(hue, saturation, lightness)`
triple of integers.  The float intermediates are modelled in `ℚ`. -/
def rgb_to_hsl (r g b : ℤ) : ℤ × ℤ × ℤ :=
  let r_norm : ℚ := (r : ℚ) / 255
  let g_norm : ℚ := (g : ℚ) / 255
  let b_norm : ℚ := (b : ℚ) / 255
  let c_max := max r_norm (max g_norm b_norm)
  let c_min := min r_norm (min g_norm b_norm)
  let delta := c_max - c_min
  let lightness := (c_max + c_min) / 2
  let hs : ℚ × ℚ :=
    if delta = 0 then (0, 0)
    else
      let saturation :=
        if lightness ≤ 1 / 2 then delta / (c_max + c_min)
        else delta / (2 - c_max - c_min)
      let hue0 :=
        if c_max = r_norm then qmod ((g_norm - b_norm) / delta) 6
        else if c_max = g_norm then (b_norm - r_norm) / delta + 2
        else (r_norm - g_norm) / delta + 4
      let hue1 := hue0 * 60
      (if hue1 < 0 then hue1 + 360 else hue1, saturation)
  (pyRound hs.1, pyRound (hs.2 * 100), pyRound (lightness * 100))

/-- `converters.hsl_to_rgb`: HSL integers to an RGB triple. -/
def hsl_to_rgb (h s lit : ℤ) : ℤ × ℤ × ℤ :=
  let s_norm : ℚ := (s : ℚ) / 100
  let l_norm : ℚ := (lit : ℚ) / 100
  if s_norm = 0 then
    let v := pyRound (l_norm * 255)
    (v, v, v)
  else
    let c := (1 - |2 * l_norm - 1|) * s_norm
    let x := c * (1 - |qmod ((h : ℚ) / 60) 2 - 1|)
    let m := l_norm - c / 2
    let rgb1 : ℚ × ℚ × ℚ :=
      if h < 60 then (c, x, 0)
      else if h < 120 then (x, c, 0)
      else if h < 180 then (0, c, x)
      else if h < 240 then (0, x, c)
      else if h < 300 then (x, 0, c)
      else (c, 0, x)
    (pyRound ((rgb1.1 + m) * 255), pyRound ((rgb1.2.1 + m) * 255),
      pyRound ((rgb1.2.2 + m) * 255))

/-- The lowercase hex digit character for a nibble (`0`–`9`, `a`–`f`). -/
def hexDigitChar (n : ℕ) : Char :=
  if n < 10 then Char.ofNat (48 + n) else Char.ofNat (87 + n)

/-- Value of one hex digit character, upper or lower case. -/
def hexNibble (c : Char) : Option ℕ :=
  if 48 ≤ c.toNat ∧ c.toNat ≤ 57 then some (c.toNat - 48)
  else if 97 ≤ c.toNat ∧ c.toNat ≤ 102 then some (c.toNat - 87)
  else if 65 ≤ c.toNat ∧ c.toNat ≤ 70 then some (c.toNat - 55)
  else none

/-- Python's `int(s, 16)` on a run of characters: the hex value, or `none`
(`ValueError`) when the run is empty or holds a non-hex character. -/
def parseHexChars (l : List Char) : Option ℕ :=
  if l.isEmpty then none
  else l.foldl (fun acc c => acc.bind fun a => (hexNibble c).map fun d => 16 * a + d)
    (some 0)

/-- `converters.hex_to_rgb`: strip leading `#`s, expand a 3-digit form by
doubling each digit, then read three 2-character slices as hex numbers.
`none` models the `ValueError` that `int(_, 16)` raises on bad slices. -/
def hex_to_rgb (s : String) : Option RGB :=
  let h0 := s.data.dropWhile (fun c => c = '#')
  let h := if h0.length = 3 then
      match h0 with
      | [a, b, c] => [a, a, b, b, c, c]
      | l => l
    else h0
  match parseHexChars (h.take 2), parseHexChars ((h.drop 2).take 2),
      parseHexChars ((h.drop 4).take 2) with
  | some r, some g, some b => some ((r : ℤ), (g : ℤ), (b : ℤ))
  | _, _, _ => none

/-- `converters.rgb_to_hex`: the f-string `#{r:02x}{g:02x}{b:02x}`.  For the
library's channel domain `0 ≤ v ≤ 255` the format pads each channel to exactly
two lowercase hex digits, which is what is modelled here (the f-string's
output on values outside that domain is not modelled). -/
def rgb_to_hex (r g b : ℤ) : String :=
  ⟨'#' :: hexDigitChar (r.toNat / 16) :: hexDigitChar (r.toNat % 16) ::
    hexDigitChar (g.toNat / 16) :: hexDigitChar (g.toNat % 16) ::
    hexDigitChar (b.toNat / 16) :: hexDigitChar (b.toNat % 16) :: []⟩

/-! ### manipulation.py -/

/-- `manipulation._clamp`. -/
def _clamp (value lo hi : ℚ) : ℚ := max lo (min hi value)

/-- `manipulation.mix`: linear interpolation in RGB space, weight clamped
to `[0, 1]`, each channel rounded. -/
def mix (rgb1 rgb2 : RGB) (weight : ℚ) : RGB :=
  let w := _clamp weight 0 1
  (pyRound ((rgb1.1 : ℚ) + ((rgb2.1 : ℚ) - (rgb1.1 : ℚ)) * w),
    pyRound ((rgb1.2.1 : ℚ) + ((rgb2.2.1 : ℚ) - (rgb1.2.1 : ℚ)) * w),
    pyRound ((rgb1.2.2 : ℚ) + ((rgb2.2.2 : ℚ) - (rgb1.2.2 : ℚ)) * w))

/-- `manipulation.gradient`: fewer than 2 steps yields `[rgb1]`, otherwise
`steps` mixes at weights `i / (steps - 1)`. -/
def gradient (rgb1 rgb2 : RGB) (steps : ℤ) : List RGB :=
  if steps < 2 then [rgb1]
  else (List.range steps.toNat).map
    (fun i : ℕ => mix rgb1 rgb2 ((i : ℚ) / ((steps : ℚ) - 1)))

/-- `manipulation.invert`: `255` minus each channel. -/
def invert (r g b : ℤ) : RGB := (255 - r, 255 - g, 255 - b)

/-! ### parsing.py -/

/-- The whitespace characters trimmed by `str.strip()` and matched by the
regex class `\s` (ASCII range). -/
def isPySpace (c : Char) : Bool :=
  c == ' ' || c == '\t' || c == '\n' || c == '\r' || c.toNat == 11 || c.toNat == 12

/-- Python's `str.strip()`, as a character list. -/
def pyStrip (s : String) : List Char :=
  ((s.data.dropWhile isPySpace).reverse.dropWhile isPySpace).reverse

/-- ASCII decimal digit. -/
def isDigitChar (c : Char) : Bool := 48 ≤ c.toNat && c.toNat ≤ 57

/-- ASCII hex digit (`[0-9a-fA-F]`). -/
def isHexDigitChar (c : Char) : Bool :=
  isDigitChar c || (97 ≤ c.toNat && c.toNat ≤ 102) || (65 ≤ c.toNat && c.toNat ≤ 70)

/-- Decimal value of a digit run. -/
def digitsVal (l : List Char) : ℕ := l.foldl (fun a c => 10 * a + (c.toNat - 48)) 0

/-- The regex fragment `\s*(\d{1,3})`: skip whitespace, then take a run of
1–3 digits (a longer run can never match, since the pattern continues with
`\s*` and a non-digit).  Returns the component value and the rest. -/
def parseComp (l : List Char) : Option (ℕ × List Char) :=
  let l1 := l.dropWhile isPySpace
  let ds := l1.takeWhile isDigitChar
  if 1 ≤ ds.length ∧ ds.length ≤ 3 then some (digitsVal ds, l1.dropWhile isDigitChar)
  else none

/-- The regex fragment `\s*c`: skip whitespace, then require character `c`. -/
def expectChar (c : Char) (l : List Char) : Option (List Char) :=
  match l.dropWhile isPySpace with
  | c' :: rest => if c' = c then some rest else none
  | [] => none

/-- The regex fragment `%?`: an optional percent sign. -/
def skipPct (l : List Char) : List Char :=
  match l with
  | '%' :: r => r
  | _ => l

/-- The argument part `\s*(\d{1,3})\s*,\s*(\d{1,3})\s*,\s*(\d{1,3})\s*\)$`
of the `rgb()` regex, applied after the literal `rgb(`. -/
def rgbArgs (l : List Char) : Option (ℕ × ℕ × ℕ) :=
  (parseComp l).bind fun p1 =>
  (expectChar ',' p1.2).bind fun r2 =>
  (parseComp r2).bind fun p2 =>
  (expectChar ',' p2.2).bind fun r4 =>
  (parseComp r4).bind fun p3 =>
  (expectChar ')' p3.2).bind fun r6 =>
  if r6 = [] then some (p1.1, p2.1, p3.1) else none

/-- `parsing._RGB_FUNC_RE`: full match of
`^rgb\(\s*(\d{1,3})\s*,\s*(\d{1,3})\s*,\s*(\d{1,3})\s*\)$`. -/
def rgbFuncMatch (l : List Char) : Option (ℕ × ℕ × ℕ) :=
  if l.take 4 = ['r', 'g', 'b', '('] then rgbArgs (l.drop 4) else none

/-- The argument part of the `hsl()` regex: as `rgbArgs` but the second and
third components may carry a trailing `%`. -/
def hslArgs (l : List Char) : Option (ℕ × ℕ × ℕ) :=
  (parseComp l).bind fun p1 =>
  (expectChar ',' p1.2).bind fun r2 =>
  (parseComp r2).bind fun p2 =>
  (expectChar ',' (skipPct p2.2)).bind fun r4 =>
  (parseComp r4).bind fun p3 =>
  (expectChar ')' (skipPct p3.2)).bind fun r6 =>
  if r6 = [] then some (p1.1, p2.1, p3.1) else none

/-- `parsing._HSL_FUNC_RE`: full match of
`^hsl\(\s*(\d{1,3})\s*,\s*(\d{1,3})%?\s*,\s*(\d{1,3})%?\s*\)$`. -/
def hslFuncMatch (l : List Char) : Option (ℕ × ℕ × ℕ) :=
  if l.take 4 = ['h', 's', 'l', '('] then hslArgs (l.drop 4) else none

/-- Drop a single leading `#`, as the group of `_HEX_RE` does. -/
def stripHash (l : List Char) : List Char :=
  if l.head? = some '#' then l.tail else l

/-- `parsing._HEX_RE`: full match of `^#?([0-9a-fA-F]{3}|[0-9a-fA-F]{6})$`. -/
def hexMatch (l : List Char) : Bool :=
  let l' := stripHash l
  ((l'.length == 3) || (l'.length == 6)) && l'.all isHexDigitChar

/-- ASCII lowercasing of one character, as `str.lower()` does on the
library's ASCII inputs. -/
def toLowerChar (c : Char) : Char :=
  if 65 ≤ c.toNat ∧ c.toNat ≤ 90 then Char.ofNat (c.toNat + 32) else c

/-- `str.lower()` on a character list. -/
def pyLower (l : List Char) : List Char := l.map toLowerChar

/-- Modelled from the spec: the module `colorbrew/named_colors.py` holding
`NAMED_COLORS` is not present under `src/`; the spec fixes it as the static
mapping of the 148 lowercase CSS color names to 6-hex-digit strings. -/
def NAMED_COLORS : List (String × String) := [
  ("aliceblue", "#f0f8ff"), ("antiquewhite", "#faebd7"), ("aqua", "#00ffff"),
  ("aquamarine", "#7fffd4"), ("azure", "#f0ffff"), ("beige", "#f5f5dc"),
  ("bisque", "#ffe4c4"), ("black", "#000000"), ("blanchedalmond", "#ffebcd"),
  ("blue", "#0000ff"), ("blueviolet", "#8a2be2"), ("brown", "#a52a2a"),
  ("burlywood", "#deb887"), ("cadetblue", "#5f9ea0"), ("chartreuse", "#7fff00"),
  ("chocolate", "#d2691e"), ("coral", "#ff7f50"), ("cornflowerblue", "#6495ed"),
  ("cornsilk", "#fff8dc"), ("crimson", "#dc143c"), ("cyan", "#00ffff"),
  ("darkblue", "#00008b"), ("darkcyan", "#008b8b"), ("darkgoldenrod", "#b8860b"),
  ("darkgray", "#a9a9a9"), ("darkgreen", "#006400"), ("darkgrey", "#a9a9a9"),
  ("darkkhaki", "#bdb76b"), ("darkmagenta", "#8b008b"), ("darkolivegreen", "#556b2f"),
  ("darkorange", "#ff8c00"), ("darkorchid", "#9932cc"), ("darkred", "#8b0000"),
  ("darksalmon", "#e9967a"), ("darkseagreen", "#8fbc8f"), ("darkslateblue", "#483d8b"),
  ("darkslategray", "#2f4f4f"), ("darkslategrey", "#2f4f4f"), ("darkturquoise", "#00ced1"),
  ("darkviolet", "#9400d3"), ("deeppink", "#ff1493"), ("deepskyblue", "#00bfff"),
  ("dimgray", "#696969"), ("dimgrey", "#696969"), ("dodgerblue", "#1e90ff"),
  ("firebrick", "#b22222"), ("floralwhite", "#fffaf0"), ("forestgreen", "#228b22"),
  ("fuchsia", "#ff00ff"), ("gainsboro", "#dcdcdc"), ("ghostwhite", "#f8f8ff"),
  ("gold", "#ffd700"), ("goldenrod", "#daa520"), ("gray", "#808080"),
  ("green", "#008000"), ("greenyellow", "#adff2f"), ("grey", "#808080"),
  ("honeydew", "#f0fff0"), ("hotpink", "#ff69b4"), ("indianred", "#cd5c5c"),
  ("indigo", "#4b0082"), ("ivory", "#fffff0"), ("khaki", "#f0e68c"),
  ("lavender", "#e6e6fa"), ("lavenderblush", "#fff0f5"), ("lawngreen", "#7cfc00"),
  ("lemonchiffon", "#fffacd"), ("lightblue", "#add8e6"), ("lightcoral", "#f08080"),
  ("lightcyan", "#e0ffff"), ("lightgoldenrodyellow", "#fafad2"), ("lightgray", "#d3d3d3"),
  ("lightgreen", "#90ee90"), ("lightgrey", "#d3d3d3"), ("lightpink", "#ffb6c1"),
  ("lightsalmon", "#ffa07a"), ("lightseagreen", "#20b2aa"), ("lightskyblue", "#87cefa"),
  ("lightslategray", "#778899"), ("lightslategrey", "#778899"), ("lightsteelblue", "#b0c4de"),
  ("lightyellow", "#ffffe0"), ("lime", "#00ff00"), ("limegreen", "#32cd32"),
  ("linen", "#faf0e6"), ("magenta", "#ff00ff"), ("maroon", "#800000"),
  ("mediumaquamarine", "#66cdaa"), ("mediumblue", "#0000cd"), ("mediumorchid", "#ba55d3"),
  ("mediumpurple", "#9370db"), ("mediumseagreen", "#3cb371"), ("mediumslateblue", "#7b68ee"),
  ("mediumspringgreen", "#00fa9a"), ("mediumturquoise", "#48d1cc"), ("mediumvioletred", "#c71585"),
  ("midnightblue", "#191970"), ("mintcream", "#f5fffa"), ("mistyrose", "#ffe4e1"),
  ("moccasin", "#ffe4b5"), ("navajowhite", "#ffdead"), ("navy", "#000080"),
  ("oldlace", "#fdf5e6"), ("olive", "#808000"), ("olivedrab", "#6b8e23"),
  ("orange", "#ffa500"), ("orangered", "#ff4500"), ("orchid", "#da70d6"),
  ("palegoldenrod", "#eee8aa"), ("palegreen", "#98fb98"), ("paleturquoise", "#afeeee"),
  ("palevioletred", "#db7093"), ("papayawhip", "#ffefd5"), ("peachpuff", "#ffdab9"),
  ("peru", "#cd853f"), ("pink", "#ffc0cb"), ("plum", "#dda0dd"),
  ("powderblue", "#b0e0e6"), ("purple", "#800080"), ("rebeccapurple", "#663399"),
  ("red", "#ff0000"), ("rosybrown", "#bc8f8f"), ("royalblue", "#4169e1"),
  ("saddlebrown", "#8b4513"), ("salmon", "#fa8072"), ("sandybrown", "#f4a460"),
  ("seagreen", "#2e8b57"), ("seashell", "#fff5ee"), ("sienna", "#a0522d"),
  ("silver", "#c0c0c0"), ("skyblue", "#87ceeb"), ("slateblue", "#6a5acd"),
  ("slategray", "#708090"), ("slategrey", "#708090"), ("snow", "#fffafa"),
  ("springgreen", "#00ff7f"), ("steelblue", "#4682b4"), ("tan", "#d2b48c"),
  ("teal", "#008080"), ("thistle", "#d8bfd8"), ("tomato", "#ff6347"),
  ("turquoise", "#40e0d0"), ("violet", "#ee82ee"), ("wheat", "#f5deb3"),
  ("white", "#ffffff"), ("whitesmoke", "#f5f5f5"), ("yellow", "#ffff00"),
  ("yellowgreen", "#9acd32")]

/-- The dictionary lookup `NAMED_COLORS.get(value.lower())`. -/
def lookupNamed (l : List Char) : Option String :=
  (NAMED_COLORS.find? (fun p => p.1.data == pyLower l)).map (fun p => p.2)

/-- The two error classes raised by parsing: `ColorParseError` carrying the
offending (stripped) string, and `ColorValueError` carrying the argument
name and offending value. -/
inductive ColorErr where
  | parseErr (s : List Char)
  | valueErr (channel : String) (val : ℤ)
deriving DecidableEq

/-- `parsing._validate_rgb`: the first channel outside `[0, 255]` yields a
`ColorValueError` naming it (the `isinstance` guard cannot fire in this
integer-typed model). -/
def _validate_rgb (r g b : ℤ) : Option ColorErr :=
  if r < 0 ∨ 255 < r then some (.valueErr "r" r)
  else if g < 0 ∨ 255 < g then some (.valueErr "g" g)
  else if b < 0 ∨ 255 < b then some (.valueErr "b" b)
  else none

/-- `parsing.parse_string`: strip, then try hex, `rgb()`, `hsl()` and the
named-color table in order; failing all four, `ColorParseError` on the
stripped string.  The `none` results of `hex_to_rgb` (unreachable after a
regex match) are surfaced as value errors, never as parse errors. -/
def parse_string (s : String) : Except ColorErr RGB :=
  let value := pyStrip s
  if hexMatch value then
    match hex_to_rgb ⟨value⟩ with
    | some rgb => .ok rgb
    | none => .error (.valueErr "hex" 0)
  else match rgbFuncMatch value with
  | some (r, g, b) =>
    match _validate_rgb (r : ℤ) (g : ℤ) (b : ℤ) with
    | some e => .error e
    | none => .ok ((r : ℤ), (g : ℤ), (b : ℤ))
  | none => match hslFuncMatch value with
    | some (h, sat, lit) => .ok (hsl_to_rgb (h : ℤ) (sat : ℤ) (lit : ℤ))
    | none => match lookupNamed value with
      | some hx =>
        match hex_to_rgb hx with
        | some rgb => .ok rgb
        | none => .error (.valueErr "name" 0)
      | none => .error (.parseErr value)

/-! ### contrast.py -/

/-- `contrast._linearize`: sRGB channel (0–255) to linear light. -/
noncomputable def _linearize (channel : ℤ) : ℝ :=
  let v : ℝ := (channel : ℝ) / 255
  if v ≤ 0.04045 then v / 12.92 else ((v + 0.055) / 1.055) ^ (2.4 : ℝ)

/-- `contrast.relative_luminance`: the WCAG weighted sum. -/
noncomputable def relative_luminance (r g b : ℤ) : ℝ :=
  0.2126 * _linearize r + 0.7152 * _linearize g + 0.0722 * _linearize b

/-- Python's `round(x, 2)`. -/
noncomputable def pyRound2 (x : ℝ) : ℝ := (pyRound (x * 100) : ℝ) / 100

/-- `contrast.contrast_ratio`: `(lighter + 0.05) / (darker + 0.05)` rounded
to two decimals.  (Primed name; the unprimed spelling is reserved.) -/
noncomputable def contrast_ratio' (rgb1 rgb2 : RGB) : ℝ :=
  let l1 := relative_luminance rgb1.1 rgb1.2.1 rgb1.2.2
  let l2 := relative_luminance rgb2.1 rgb2.2.1 rgb2.2.2
  let lighter := max l1 l2
  let darker := min l1 l2
  pyRound2 ((lighter + 0.05) / (darker + 0.05))

/-- Modelled from the spec: `is_light` is exported and tested but its
definition is missing from `src/colorbrew/contrast.py`.  The spec prescribes
a single luminance threshold — light iff relative luminance is at least 0.5,
consistent with white being light. -/
def is_light (r g b : ℤ) : Prop := 0.5 ≤ relative_luminance r g b

/-- Modelled from the spec: `is_dark`, the complement of `is_light` under
the same single threshold, consistent with black being dark. -/
def is_dark (r g b : ℤ) : Prop := relative_luminance r g b < 0.5

/-! ### colorblind.py -/

/-- A 3×3 matrix of floats, row by row. -/
abbrev Mat3 := (ℝ × ℝ × ℝ) × (ℝ × ℝ × ℝ) × (ℝ × ℝ × ℝ)

/-- `colorblind._MATRICES["protanopia"]` (Viénot 1999). -/
def protanopiaM : Mat3 :=
  ((0.170556992, 0.829443014, 0.0),
   (0.170556991, 0.829443008, 0.0),
   (-0.004517144, 0.004517144, 1.0))

/-- `colorblind._MATRICES["deuteranopia"]` (Viénot 1999). -/
def deuteranopiaM : Mat3 :=
  ((0.330660070, 0.669339930, 0.0),
   (0.330660070, 0.669339930, 0.0),
   (-0.027855380, 0.027855380, 1.0))

/-- `colorblind._MATRICES["tritanopia"]` (Brettel single-plane). -/
def tritanopiaM : Mat3 :=
  ((1.0, 0.127398900, -0.127398900),
   (0.0, 0.873909300, 0.126090700),
   (0.0, 0.873909300, 0.126090700))

/-- `colorblind._delinearize`: linear light back to an sRGB integer,
clamped to `[0, 1]` before scaling and rounding. -/
noncomputable def _delinearize (v : ℝ) : ℤ :=
  let out := if v ≤ 0.0031308 then v * 12.92 else 1.055 * v ^ ((1 : ℝ) / 2.4) - 0.055
  pyRound (max 0 (min 1 out) * 255)

/-- `colorblind.simulate`: look the deficiency name up (unknown names raise,
modelled as `none`), linearize, apply the matrix, delinearize. -/
noncomputable def simulate (r g b : ℤ) (deficiency : String) : Option RGB :=
  let matrix : Option Mat3 :=
    if deficiency = "protanopia" then some protanopiaM
    else if deficiency = "deuteranopia" then some deuteranopiaM
    else if deficiency = "tritanopia" then some tritanopiaM
    else none
  match matrix with
  | none => none
  | some m =>
    let rl := _linearize r
    let gl := _linearize g
    let bl := _linearize b
    some (_delinearize (m.1.1 * rl + m.1.2.1 * gl + m.1.2.2 * bl),
      _delinearize (m.2.1.1 * rl + m.2.1.2.1 * gl + m.2.1.2.2 * bl),
      _delinearize (m.2.2.1 * rl + m.2.2.2.1 * gl + m.2.2.2.2 * bl))

/-! ### temperature.py -/

/-- `temperature._linearize`: an sRGB gamma-encoded value in `[0, 1]` to
linear light (unlike `contrast._linearize` this takes the normalized value). -/
noncomputable def _linearize_v (v : ℝ) : ℝ :=
  if v ≤ 0.04045 then v / 12.92 else ((v + 0.055) / 1.055) ^ (2.4 : ℝ)

/-- `temperature.estimate_kelvin`: sRGB → XYZ → xy chromaticity → McCamy's
formula, guarded on a zero XYZ total and clamped to `[1000, 40000]`. -/
noncomputable def estimate_kelvin (r g b : ℤ) : ℤ :=
  let rn := _linearize_v ((r : ℝ) / 255)
  let gn := _linearize_v ((g : ℝ) / 255)
  let bn := _linearize_v ((b : ℝ) / 255)
  let x := 0.4124564 * rn + 0.3575761 * gn + 0.1804375 * bn
  let y := 0.2126729 * rn + 0.7151522 * gn + 0.0721750 * bn
  let z := 0.0193339 * rn + 0.1191920 * gn + 0.9503041 * bn
  let total := x + y + z
  if total = 0 then 1000
  else
    let cx := x / total
    let cy := y / total
    let n := (cx - 0.3320) / (0.1858 - cy)
    let cct := 449.0 * n ^ 3 + 3525.0 * n ^ 2 + 6823.3 * n + 5520.33
    max 1000 (min 40000 (pyRound cct))

/-! ### Theorems: the rounding model -/

theorem pyRound_intCast {α : Type} [LinearOrderedField α] [FloorRing α]
    (n : ℤ) : pyRound (n : α) = n := by
  unfold pyRound
  rw [Int.floor_intCast]
  have h : (n : α) - (n : α) = 0 := by ring
  rw [h]
  norm_num

/-- `pyRound` is at distance at most `1/2` from its argument. -/
theorem abs_pyRound_sub_le {α : Type} [LinearOrderedField α] [FloorRing α]
    (x : α) : |(pyRound x : α) - x| ≤ 1 / 2 := by
  have habs : |(1 : α) / 2| = 1 / 2 := abs_of_nonneg (by norm_num)
  unfold pyRound
  split
  · rename_i htie
    split
    · rw [show (⌊x⌋ : α) - x = -(1 / 2) by linarith, abs_neg, habs]
    · push_cast
      rw [show (⌊x⌋ : α) + 1 - x = 1 / 2 by linarith, habs]
  · rw [abs_sub_comm]
    exact abs_sub_round x

/-- If `x` lies strictly inside `(n - 1/2, n + 1/2)` then `pyRound x = n`. -/
theorem pyRound_eq_of {α : Type} [LinearOrderedField α] [FloorRing α]
    (x : α) (n : ℤ) (h1 : (n : α) - 1 / 2 < x) (h2 : x < (n : α) + 1 / 2) :
    pyRound x = n := by
  have hnotie : ¬(x - (⌊x⌋ : α) = 1 / 2) := by
    intro htie
    have hx : x = (⌊x⌋ : α) + 1 / 2 := by linarith
    rw [hx] at h1 h2
    have ha : (n : α) - 1 < (⌊x⌋ : α) := by linarith
    have hb : (⌊x⌋ : α) < (n : α) := by linarith
    have ha' : n - 1 < ⌊x⌋ := by exact_mod_cast ha
    have hb' : ⌊x⌋ < n := by exact_mod_cast hb
    omega
  unfold pyRound
  rw [if_neg hnotie, round_eq]
  rw [Int.floor_eq_iff]
  refine ⟨by linarith, ?_⟩
  linarith

/-! ### Theorems: hex round-trip (claim C4) -/

theorem hexNibble_hexDigitChar (n : ℕ) (h : n < 16) :
    hexNibble (hexDigitChar n) = some n := by
  interval_cases n <;> decide

theorem hexDigitChar_ne_hash (n : ℕ) (h : n < 16) : hexDigitChar n ≠ '#' := by
  interval_cases n <;> decide

theorem parseHexChars_pair (n : ℕ) (h : n < 256) :
    parseHexChars [hexDigitChar (n / 16), hexDigitChar (n % 16)] = some n := by
  have h1 : n / 16 < 16 := by omega
  have h2 : n % 16 < 16 := by omega
  simp [parseHexChars, hexNibble_hexDigitChar _ h1, hexNibble_hexDigitChar _ h2]
  omega

/-- C4: for every integer triple `(r, g, b)` with each channel in `[0, 255]`,
`hex_to_rgb (rgb_to_hex r g b) = (r, g, b)` exactly. -/
theorem hex_rgb_roundtrip (r g b : ℤ)
    (h1 : 0 ≤ r) (h2 : r ≤ 255) (h3 : 0 ≤ g) (h4 : g ≤ 255)
    (h5 : 0 ≤ b) (h6 : b ≤ 255) :
    hex_to_rgb (rgb_to_hex r g b) = some (r, g, b) := by
  have hr : r.toNat < 256 := by omega
  have hg : g.toNat < 256 := by omega
  have hb : b.toNat < 256 := by omega
  unfold rgb_to_hex hex_to_rgb
  rw [show (String.mk ('#' :: hexDigitChar (r.toNat / 16) :: hexDigitChar (r.toNat % 16) ::
      hexDigitChar (g.toNat / 16) :: hexDigitChar (g.toNat % 16) ::
      hexDigitChar (b.toNat / 16) :: hexDigitChar (b.toNat % 16) :: [])).data
      = '#' :: hexDigitChar (r.toNat / 16) :: hexDigitChar (r.toNat % 16) ::
      hexDigitChar (g.toNat / 16) :: hexDigitChar (g.toNat % 16) ::
      hexDigitChar (b.toNat / 16) :: hexDigitChar (b.toNat % 16) :: [] from rfl]
  rw [List.dropWhile_cons_of_pos (by simp),
    List.dropWhile_cons_of_neg (by simp [hexDigitChar_ne_hash (r.toNat / 16) (by omega)])]
  dsimp only
  rw [if_neg (by simp)]
  simp only [List.take, List.drop]
  rw [parseHexChars_pair _ hr, parseHexChars_pair _ hg, parseHexChars_pair _ hb]
  simp only [Option.some.injEq, Prod.mk.injEq]
  refine ⟨?_, ?_, ?_⟩ <;> omega

/-- C4 witness: the round-trip at the concrete triple `(52, 152, 219)`. -/
theorem hex_rgb_roundtrip_witness :
    (0 : ℤ) ≤ 52 ∧ (52 : ℤ) ≤ 255 ∧
    hex_to_rgb (rgb_to_hex 52 152 219) = some (52, 152, 219) :=
  ⟨by norm_num, by norm_num,
    hex_rgb_roundtrip 52 152 219 (by norm_num) (by norm_num) (by norm_num)
      (by norm_num) (by norm_num) (by norm_num)⟩

/-! ### Theorems: mix and gradient (claim C6) -/

theorem mix_zero (a b : RGB) : mix a b 0 = a := by
  obtain ⟨a1, a2, a3⟩ := a
  obtain ⟨b1, b2, b3⟩ := b
  have e : ∀ x y : ℚ, x + (y - x) * 0 = x := fun x y => by ring
  simp only [mix, _clamp]
  norm_num [e, pyRound_intCast]

theorem mix_one (a b : RGB) : mix a b 1 = b := by
  obtain ⟨a1, a2, a3⟩ := a
  obtain ⟨b1, b2, b3⟩ := b
  have e : ∀ x y : ℚ, x + (y - x) * 1 = y := fun x y => by ring
  simp only [mix, _clamp]
  norm_num [e, pyRound_intCast]

/-- C6: `mix` is exact at weights 0 and 1, and `gradient` returns `[a]` for
fewer than two steps and otherwise exactly `steps` colors running from `a`
to `b`. -/
theorem mix_gradient_spec (a b : RGB) (ha : inRange a) (hb : inRange b) :
    mix a b 0 = a ∧ mix a b 1 = b ∧
    (∀ steps : ℤ, steps < 2 → gradient a b steps = [a]) ∧
    (∀ steps : ℤ, 2 ≤ steps →
      ((gradient a b steps).length : ℤ) = steps ∧
      (gradient a b steps).head? = some a ∧
      (gradient a b steps).getLast? = some b) := by
  refine ⟨mix_zero a b, mix_one a b, ?_, ?_⟩
  · intro steps h
    simp [gradient, h]
  · intro steps h
    have hlt : ¬(steps < 2) := by omega
    have hn : (steps.toNat : ℤ) = steps := Int.toNat_of_nonneg (by omega)
    obtain ⟨m, hm⟩ : ∃ m, steps.toNat = m + 2 := ⟨steps.toNat - 2, by omega⟩
    have hr1 : List.range steps.toNat = 0 :: (List.range (m + 1)).map Nat.succ := by
      rw [hm]
      exact List.range_succ_eq_map (m + 1)
    have hr2 : List.range steps.toNat = List.range (m + 1) ++ [m + 1] := by
      rw [hm]
      simpa using List.range_succ (n := m + 1)
    refine ⟨?_, ?_, ?_⟩
    · rw [gradient, if_neg hlt, List.length_map, List.length_range]
      exact hn
    · rw [gradient, if_neg hlt, hr1, List.map_cons, List.head?_cons]
      norm_num [mix_zero]
    · rw [gradient, if_neg hlt, hr2, List.map_append, List.map_singleton,
        List.getLast?_concat]
      have hms : ((m : ℚ) + 2) = (steps : ℚ) := by
        have h2 : ((m : ℤ) + 2) = steps := by omega
        exact_mod_cast congrArg (fun z : ℤ => (z : ℚ)) h2
      have hne : ((steps : ℚ) - 1) ≠ 0 := by
        have : (2 : ℚ) ≤ (steps : ℚ) := by exact_mod_cast h
        linarith
      rw [show ((m + 1 : ℕ) : ℚ) = (steps : ℚ) - 1 by push_cast; linarith,
        div_self hne, mix_one]

/-- C6 witness: the endpoint laws at the concrete pair
`(10, 20, 30)`, `(200, 100, 0)` with 5 steps. -/
theorem mix_gradient_spec_witness :
    inRange (10, 20, 30) ∧
    (∀ steps : ℤ, 2 ≤ steps →
      ((gradient (10, 20, 30) (200, 100, 0) steps).length : ℤ) = steps ∧
      (gradient (10, 20, 30) (200, 100, 0) steps).head? = some (10, 20, 30) ∧
      (gradient (10, 20, 30) (200, 100, 0) steps).getLast? = some (200, 100, 0)) :=
  ⟨by norm_num [inRange],
    (mix_gradient_spec (10, 20, 30) (200, 100, 0) (by norm_num [inRange])
      (by norm_num [inRange])).2.2.2⟩

/-! ### Theorems: invert (claim C10) -/

/-- C10: `invert` is an involution on `[0, 255]` triples and its output
channels stay in `[0, 255]`. -/
theorem invert_involution (r g b : ℤ)
    (h1 : 0 ≤ r) (h2 : r ≤ 255) (h3 : 0 ≤ g) (h4 : g ≤ 255)
    (h5 : 0 ≤ b) (h6 : b ≤ 255) :
    invert (invert r g b).1 (invert r g b).2.1 (invert r g b).2.2 = (r, g, b) ∧
    inRange (invert r g b) := by
  unfold invert inRange
  simp only [Prod.mk.injEq]
  omega

/-- C10 witness: involution and range at the concrete triple `(10, 20, 250)`. -/
theorem invert_involution_witness :
    (0 : ℤ) ≤ 10 ∧
    (invert (invert 10 20 250).1 (invert 10 20 250).2.1 (invert 10 20 250).2.2
        = (10, 20, 250) ∧
      inRange (invert 10 20 250)) :=
  ⟨by norm_num,
    invert_involution 10 20 250 (by norm_num) (by norm_num) (by norm_num)
      (by norm_num) (by norm_num) (by norm_num)⟩

/-! ### Theorems: HSL round-trip (claim C5) -/

theorem pyRound_zero {α : Type} [LinearOrderedField α] [FloorRing α] :
    pyRound (0 : α) = 0 := by
  simpa using pyRound_intCast (α := α) 0

/-- On an achromatic triple `rgb_to_hsl` short-circuits to hue 0,
saturation 0 and the rounded lightness percentage. -/
theorem rgb_to_hsl_gray (v : ℤ) :
    rgb_to_hsl v v v = (0, 0, pyRound ((v : ℚ) * 100 / 255)) := by
  unfold rgb_to_hsl
  dsimp only
  rw [max_self, max_self, min_self, min_self, sub_self, if_pos rfl]
  refine Prod.ext (by simpa using pyRound_zero) (Prod.ext (by simpa using pyRound_zero) ?_)
  show pyRound (((v : ℚ) / 255 + (v : ℚ) / 255) / 2 * 100) = pyRound ((v : ℚ) * 100 / 255)
  congr 1
  ring

/-- With saturation 0, `hsl_to_rgb` short-circuits to a pure gray. -/
theorem hsl_to_rgb_gray (lit : ℤ) :
    hsl_to_rgb 0 0 lit =
      (pyRound ((lit : ℚ) / 100 * 255), pyRound ((lit : ℚ) / 100 * 255),
        pyRound ((lit : ℚ) / 100 * 255)) := by
  unfold hsl_to_rgb
  norm_num

/-- The double rounding through a lightness percentage moves a gray channel
by at most 1. -/
theorem gray_roundtrip_bound (v : ℤ) :
    |pyRound (((pyRound ((v : ℚ) * 100 / 255) : ℤ) : ℚ) / 100 * 255) - v| ≤ 1 := by
  set L : ℤ := pyRound ((v : ℚ) * 100 / 255) with hLdef
  set w : ℤ := pyRound ((L : ℚ) / 100 * 255) with hwdef
  have hL' := abs_le.mp (abs_pyRound_sub_le ((v : ℚ) * 100 / 255))
  have hw' := abs_le.mp (abs_pyRound_sub_le ((L : ℚ) / 100 * 255))
  rw [← hLdef] at hL'
  rw [← hwdef] at hw'
  have key : |(w : ℚ) - (v : ℚ)| ≤ 71 / 40 := by
    rw [abs_le]
    constructor <;> linarith [hL'.1, hL'.2, hw'.1, hw'.2]
  have hcast : ((|w - v| : ℤ) : ℚ) ≤ 71 / 40 := by
    rw [Int.cast_abs]
    push_cast
    push_cast at key
    exact key
  have hlt : ((|w - v| : ℤ) : ℚ) < ((2 : ℤ) : ℚ) := lt_of_le_of_lt hcast (by norm_num)
  have : |w - v| < 2 := by exact_mod_cast hlt
  omega

/-- C5 (amended): for achromatic triples (`r = g = b`, channels in
`[0, 255]`) the HSL round-trip differs from the original by at most 1 in
each channel; for general triples the per-channel error can exceed 1. -/
theorem hsl_roundtrip_achromatic (v : ℤ) (h1 : 0 ≤ v) (h2 : v ≤ 255) :
    |(hsl_to_rgb (rgb_to_hsl v v v).1 (rgb_to_hsl v v v).2.1
        (rgb_to_hsl v v v).2.2).1 - v| ≤ 1 ∧
    |(hsl_to_rgb (rgb_to_hsl v v v).1 (rgb_to_hsl v v v).2.1
        (rgb_to_hsl v v v).2.2).2.1 - v| ≤ 1 ∧
    |(hsl_to_rgb (rgb_to_hsl v v v).1 (rgb_to_hsl v v v).2.1
        (rgb_to_hsl v v v).2.2).2.2 - v| ≤ 1 := by
  rw [rgb_to_hsl_gray]
  dsimp only
  rw [hsl_to_rgb_gray]
  exact ⟨gray_roundtrip_bound v, gray_roundtrip_bound v, gray_roundtrip_bound v⟩

/-- C5 witness: the achromatic round-trip bound at the concrete gray `5`. -/
theorem hsl_roundtrip_achromatic_witness :
    (0 : ℤ) ≤ 5 ∧ (5 : ℤ) ≤ 255 ∧
    |(hsl_to_rgb (rgb_to_hsl 5 5 5).1 (rgb_to_hsl 5 5 5).2.1
        (rgb_to_hsl 5 5 5).2.2).1 - 5| ≤ 1 :=
  ⟨by norm_num, by norm_num,
    (hsl_roundtrip_achromatic 5 (by norm_num) (by norm_num)).1⟩

/-- C5 counterexample: the triple `(2, 0, 0)` (channels in `[0, 255]`)
round-trips through `rgb_to_hsl` and `hsl_to_rgb` to `(0, 0, 0)`, whose red
channel is 2 away from the original — more than the claimed 1. -/
theorem hsl_roundtrip_counterexample :
    hsl_to_rgb (rgb_to_hsl 2 0 0).1 (rgb_to_hsl 2 0 0).2.1
        (rgb_to_hsl 2 0 0).2.2 = (0, 0, 0) ∧
    ¬(|(0 : ℤ) - 2| ≤ 1) := by
  have h1 : rgb_to_hsl 2 0 0 = (0, 100, 0) := by
    unfold rgb_to_hsl qmod
    norm_num [max_def, min_def, pyRound, round_eq, Int.even_iff]
  rw [h1]
  refine ⟨?_, by decide⟩
  unfold hsl_to_rgb qmod
  norm_num [pyRound, round_eq, Int.even_iff, abs]

/-! ### Theorems: construction can store out-of-range channels (claim C1) -/

/-- C1 (code bug): the `hsl()` branch of `parse_string` performs no
validation, so `Color("hsl(0, 100, 200)")` succeeds and stores the channel
triple `(255, 765, 765)`, with two channels far outside `[0, 255]`. -/
theorem parse_string_hsl_unvalidated :
    parse_string "hsl(0, 100, 200)" = .ok (255, 765, 765) ∧
    ¬((765 : ℤ) ≤ 255) := by
  refine ⟨?_, by decide⟩
  have h1 : hexMatch (pyStrip "hsl(0, 100, 200)") = false := by decide
  have h2 : rgbFuncMatch (pyStrip "hsl(0, 100, 200)") = none := by decide
  have h3 : hslFuncMatch (pyStrip "hsl(0, 100, 200)") = some (0, 100, 200) := by decide
  have h4 : hsl_to_rgb ((0 : ℕ) : ℤ) ((100 : ℕ) : ℤ) ((200 : ℕ) : ℤ) = (255, 765, 765) := by
    norm_num
    unfold hsl_to_rgb qmod
    norm_num [pyRound, round_eq, Int.even_iff, abs]
  simp only [parse_string, h1, h2, h3, Bool.false_eq_true, if_false]
  rw [h4]

/-! ### Theorems: parse_string error behaviour (claim C3) -/

/-- A successful `rgb()` match forces the hex pattern to fail: the string
starts with `r`, which is not a hex digit. -/
theorem rgbFuncMatch_imp_hexMatch_false {l : List Char} {x : ℕ × ℕ × ℕ}
    (h : rgbFuncMatch l = some x) : hexMatch l = false := by
  rw [rgbFuncMatch] at h
  split at h
  · rename_i h4
    have hl : l = 'r' :: 'g' :: 'b' :: '(' :: l.drop 4 := by
      conv_lhs => rw [← List.take_append_drop 4 l]
      rw [h4]
      rfl
    rw [hl, hexMatch, stripHash]
    simp [show isHexDigitChar 'r' = false from by decide]
  · exact absurd h (by simp)

/-- `_validate_rgb` fails by naming the first out-of-range channel. -/
theorem _validate_rgb_shape (r g b : ℤ)
    (h : ¬(0 ≤ r ∧ r ≤ 255 ∧ 0 ≤ g ∧ g ≤ 255 ∧ 0 ≤ b ∧ b ≤ 255)) :
    ∃ name val, _validate_rgb r g b = some (.valueErr name val) ∧
      (name = "r" ∨ name = "g" ∨ name = "b") := by
  unfold _validate_rgb
  by_cases hr : r < 0 ∨ 255 < r
  · exact ⟨"r", r, by rw [if_pos hr], Or.inl rfl⟩
  by_cases hg' : g < 0 ∨ 255 < g
  · exact ⟨"g", g, by rw [if_neg hr, if_pos hg'], Or.inr (Or.inl rfl)⟩
  by_cases hb' : b < 0 ∨ 255 < b
  · exact ⟨"b", b, by rw [if_neg hr, if_neg hg', if_pos hb'], Or.inr (Or.inr rfl)⟩
  · exact absurd ⟨by omega, by omega, by omega, by omega, by omega, by omega⟩ h

/-- `_validate_rgb` never produces a parse error. -/
theorem _validate_rgb_no_parse (r g b : ℤ) (t : List Char) :
    _validate_rgb r g b ≠ some (.parseErr t) := by
  unfold _validate_rgb
  split_ifs <;> simp

/-- C3: `parse_string` fails with a `ColorParseError` identifying the
stripped string exactly when the stripped string matches none of the four
recognized forms; and an `rgb()` match with a component outside `[0, 255]`
fails with a `ColorValueError` naming one of the channels. -/
theorem parse_string_spec (s : String) :
    (parse_string s = .error (.parseErr (pyStrip s)) ↔
      (hexMatch (pyStrip s) = false ∧ rgbFuncMatch (pyStrip s) = none ∧
        hslFuncMatch (pyStrip s) = none ∧ lookupNamed (pyStrip s) = none)) ∧
    (∀ r g b : ℕ, rgbFuncMatch (pyStrip s) = some (r, g, b) →
      ¬((r : ℤ) ≤ 255 ∧ (g : ℤ) ≤ 255 ∧ (b : ℤ) ≤ 255) →
      ∃ name val, parse_string s = .error (.valueErr name val) ∧
        (name = "r" ∨ name = "g" ∨ name = "b")) := by
  constructor
  · cases hhex : hexMatch (pyStrip s) with
    | true =>
      cases hh : hex_to_rgb ⟨pyStrip s⟩ <;> simp [parse_string, hhex, hh]
    | false =>
      cases hrgb : rgbFuncMatch (pyStrip s) with
      | some v =>
        obtain ⟨r, g, b⟩ := v
        cases hval : _validate_rgb (r : ℤ) (g : ℤ) (b : ℤ) with
        | some e =>
          cases e with
          | parseErr t => exact absurd hval (_validate_rgb_no_parse _ _ _ t)
          | valueErr nm v' => simp [parse_string, hhex, hrgb, hval]
        | none => simp [parse_string, hhex, hrgb, hval]
      | none =>
        cases hhsl : hslFuncMatch (pyStrip s) with
        | some v =>
          obtain ⟨h', s', l'⟩ := v
          simp [parse_string, hhex, hrgb, hhsl]
        | none =>
          cases hname : lookupNamed (pyStrip s) with
          | some hx =>
            cases hhx : hex_to_rgb hx <;>
              simp [parse_string, hhex, hrgb, hhsl, hname, hhx]
          | none => simp [parse_string, hhex, hrgb, hhsl, hname]
  · intro r g b hmatch hbad
    have hhex := rgbFuncMatch_imp_hexMatch_false hmatch
    have hfail : ¬(0 ≤ (r : ℤ) ∧ (r : ℤ) ≤ 255 ∧ 0 ≤ (g : ℤ) ∧ (g : ℤ) ≤ 255 ∧
        0 ≤ (b : ℤ) ∧ (b : ℤ) ≤ 255) := by
      intro hfull
      exact hbad ⟨hfull.2.1, hfull.2.2.2.1, hfull.2.2.2.2.2⟩
    obtain ⟨name, val, hv, hnm⟩ := _validate_rgb_shape _ _ _ hfail
    refine ⟨name, val, ?_, hnm⟩
    simp [parse_string, hhex, hmatch, hv]

/-- C3 witness: `"rgb(300, 0, 0)"` matches the `rgb()` form with an
out-of-range component and fails with a channel-naming value error. -/
theorem parse_string_spec_witness :
    rgbFuncMatch (pyStrip "rgb(300, 0, 0)") = some (300, 0, 0) ∧
    (∃ name val, parse_string "rgb(300, 0, 0)" = .error (.valueErr name val) ∧
      (name = "r" ∨ name = "g" ∨ name = "b")) :=
  ⟨by decide,
    (parse_string_spec "rgb(300, 0, 0)").2 300 0 0 (by decide) (by decide)⟩

/-! ### Theorems: luminance, light/dark and contrast (claims C2 and C7) -/

theorem _linearize_zero : _linearize 0 = 0 := by
  simp only [_linearize]
  norm_num

theorem _linearize_255 : _linearize 255 = 1 := by
  simp only [_linearize]
  rw [if_neg (by norm_num)]
  rw [show (((255 : ℤ) : ℝ) / 255 + 0.055) / 1.055 = 1 by norm_num, Real.one_rpow]

theorem _linearize_nonneg (c : ℤ) (hc : 0 ≤ c) : 0 ≤ _linearize c := by
  have hc' : (0 : ℝ) ≤ (c : ℝ) := by exact_mod_cast hc
  simp only [_linearize]
  split
  · exact div_nonneg (div_nonneg hc' (by norm_num)) (by norm_num)
  · refine Real.rpow_nonneg ?_ _
    have h1 : (0 : ℝ) ≤ (c : ℝ) / 255 := div_nonneg hc' (by norm_num)
    apply div_nonneg <;> linarith

theorem relative_luminance_black : relative_luminance 0 0 0 = 0 := by
  unfold relative_luminance
  rw [_linearize_zero]
  ring

theorem relative_luminance_white : relative_luminance 255 255 255 = 1 := by
  unfold relative_luminance
  rw [_linearize_255]
  norm_num

theorem relative_luminance_nonneg (r g b : ℤ)
    (hr : 0 ≤ r) (hg : 0 ≤ g) (hb : 0 ≤ b) : 0 ≤ relative_luminance r g b := by
  unfold relative_luminance
  have h1 := _linearize_nonneg r hr
  have h2 := _linearize_nonneg g hg
  have h3 := _linearize_nonneg b hb
  have e1 : (0 : ℝ) ≤ 0.2126 * _linearize r := mul_nonneg (by norm_num) h1
  have e2 : (0 : ℝ) ≤ 0.7152 * _linearize g := mul_nonneg (by norm_num) h2
  have e3 : (0 : ℝ) ≤ 0.0722 * _linearize b := mul_nonneg (by norm_num) h3
  linarith

theorem pyRound2_intCast (n : ℤ) : pyRound2 (n : ℝ) = (n : ℝ) := by
  unfold pyRound2
  rw [show (n : ℝ) * 100 = ((n * 100 : ℤ) : ℝ) by push_cast; ring, pyRound_intCast]
  push_cast
  exact mul_div_cancel_right₀ _ (by norm_num)

/-- C2: under the spec-modelled threshold, `is_light` and `is_dark` are
complementary on every channel triple in `[0, 255]`, black is dark and
white is light. -/
theorem is_light_is_dark_spec :
    (∀ r g b : ℤ, inRange (r, g, b) → (is_light r g b ↔ ¬ is_dark r g b)) ∧
    is_dark 0 0 0 ∧ is_light 255 255 255 := by
  refine ⟨?_, ?_, ?_⟩
  · intro r g b _
    unfold is_light is_dark
    exact not_lt.symm
  · unfold is_dark
    rw [relative_luminance_black]
    norm_num
  · unfold is_light
    rw [relative_luminance_white]
    norm_num

/-- C2 witness: complementarity at the concrete triple `(0, 0, 0)`. -/
theorem is_light_is_dark_spec_witness :
    inRange (0, 0, 0) ∧ (is_light 0 0 0 ↔ ¬ is_dark 0 0 0) :=
  ⟨by norm_num [inRange],
    is_light_is_dark_spec.1 0 0 0 (by norm_num [inRange])⟩

/-- C7: `contrast_ratio` is symmetric, equals 21.0 on black/white and
equals 1.0 on every pair of equal in-range colors. -/
theorem contrast_ratio_spec :
    (∀ x y : RGB, contrast_ratio' x y = contrast_ratio' y x) ∧
    contrast_ratio' (0, 0, 0) (255, 255, 255) = 21 ∧
    (∀ c : RGB, inRange c → contrast_ratio' c c = 1) := by
  refine ⟨?_, ?_, ?_⟩
  · intro x y
    unfold contrast_ratio'
    dsimp only
    rw [max_comm, min_comm]
  · unfold contrast_ratio'
    dsimp only
    rw [relative_luminance_black, relative_luminance_white]
    rw [max_eq_right (by norm_num : (0 : ℝ) ≤ 1), min_eq_left (by norm_num : (0 : ℝ) ≤ 1)]
    rw [show ((1 : ℝ) + 0.05) / (0 + 0.05) = ((21 : ℤ) : ℝ) by norm_num, pyRound2_intCast]
    norm_num
  · intro c hc
    obtain ⟨r, g, b⟩ := c
    obtain ⟨h1, h2, h3, h4, h5, h6⟩ := hc
    unfold contrast_ratio'
    dsimp only
    rw [max_self, min_self]
    have hl := relative_luminance_nonneg r g b h1 h3 h5
    rw [div_self (by linarith : relative_luminance r g b + 0.05 ≠ 0)]
    rw [show (1 : ℝ) = ((1 : ℤ) : ℝ) by norm_num, pyRound2_intCast]

/-- C7 witness: the equal-color ratio at the concrete triple `(52, 152, 219)`. -/
theorem contrast_ratio_spec_witness :
    inRange (52, 152, 219) ∧ contrast_ratio' (52, 152, 219) (52, 152, 219) = 1 :=
  ⟨by norm_num [inRange],
    contrast_ratio_spec.2.2 (52, 152, 219) (by norm_num [inRange])⟩

/-! ### Theorems: colorblind simulation (claim C8) -/

theorem _delinearize_zero : _delinearize 0 = 0 := by
  unfold _delinearize
  rw [if_pos (by norm_num)]
  norm_num [pyRound_zero]

theorem _delinearize_of_one_le (x : ℝ) (hx : 1 ≤ x) : _delinearize x = 255 := by
  unfold _delinearize
  dsimp only
  rw [if_neg (by push_neg; linarith)]
  have ht : 1 ≤ x ^ ((1 : ℝ) / 2.4) := Real.one_le_rpow hx (by norm_num)
  have hout : (1 : ℝ) ≤ 1.055 * x ^ ((1 : ℝ) / 2.4) - 0.055 := by nlinarith
  rw [min_eq_left hout, max_eq_right (by norm_num : (0 : ℝ) ≤ 1), one_mul]
  rw [show (255 : ℝ) = ((255 : ℤ) : ℝ) by norm_num, pyRound_intCast]

theorem _delinearize_near_one (x : ℝ) (h1 : 0.9999999 ≤ x) (h2 : x ≤ 1) :
    _delinearize x = 255 := by
  unfold _delinearize
  dsimp only
  rw [if_neg (by push_neg; linarith)]
  have hx0 : (0 : ℝ) < x := by linarith
  have ht1 : x ^ ((1 : ℝ) / 2.4) ≤ 1 := Real.rpow_le_one (by linarith) h2 (by norm_num)
  have ht2 : x ≤ x ^ ((1 : ℝ) / 2.4) := by
    have h := Real.rpow_le_rpow_of_exponent_ge hx0 h2 (show (1 : ℝ) / 2.4 ≤ 1 by norm_num)
    rwa [Real.rpow_one] at h
  have hout1 : 1.055 * x ^ ((1 : ℝ) / 2.4) - 0.055 ≤ 1 := by nlinarith
  have hout2 : (0.99999989 : ℝ) ≤ 1.055 * x ^ ((1 : ℝ) / 2.4) - 0.055 := by nlinarith
  rw [min_eq_right hout1, max_eq_right (by linarith)]
  apply pyRound_eq_of
  · push_cast
    nlinarith
  · push_cast
    nlinarith

/-- C8: each of the three supported deficiencies maps pure black to pure
black and pure white to pure white (after the clamp-then-round output
conversion). -/
theorem simulate_extremes :
    (simulate 0 0 0 "protanopia" = some (0, 0, 0) ∧
      simulate 255 255 255 "protanopia" = some (255, 255, 255)) ∧
    (simulate 0 0 0 "deuteranopia" = some (0, 0, 0) ∧
      simulate 255 255 255 "deuteranopia" = some (255, 255, 255)) ∧
    (simulate 0 0 0 "tritanopia" = some (0, 0, 0) ∧
      simulate 255 255 255 "tritanopia" = some (255, 255, 255)) := by
  have hb := _linearize_zero
  have hw := _linearize_255
  refine ⟨⟨?_, ?_⟩, ⟨?_, ?_⟩, ⟨?_, ?_⟩⟩
  · rw [simulate, if_pos rfl]
    dsimp only [protanopiaM]
    rw [hb]
    norm_num [_delinearize_zero]
  · rw [simulate, if_pos rfl]
    dsimp only [protanopiaM]
    rw [hw]
    rw [show ((0.170556992 : ℝ) * 1 + 0.829443014 * 1 + 0.0 * 1) = 1.000000006 by norm_num,
      show ((0.170556991 : ℝ) * 1 + 0.829443008 * 1 + 0.0 * 1) = 0.999999999 by norm_num,
      show ((-0.004517144 : ℝ) * 1 + 0.004517144 * 1 + 1.0 * 1) = 1 by norm_num,
      _delinearize_of_one_le 1.000000006 (by norm_num),
      _delinearize_near_one 0.999999999 (by norm_num) (by norm_num),
      _delinearize_of_one_le 1 (by norm_num)]
  · rw [simulate, if_neg (by decide), if_pos rfl]
    dsimp only [deuteranopiaM]
    rw [hb]
    norm_num [_delinearize_zero]
  · rw [simulate, if_neg (by decide), if_pos rfl]
    dsimp only [deuteranopiaM]
    rw [hw]
    rw [show ((0.330660070 : ℝ) * 1 + 0.669339930 * 1 + 0.0 * 1) = 1 by norm_num,
      show ((-0.027855380 : ℝ) * 1 + 0.027855380 * 1 + 1.0 * 1) = 1 by norm_num,
      _delinearize_of_one_le 1 (by norm_num)]
  · rw [simulate, if_neg (by decide), if_neg (by decide), if_pos rfl]
    dsimp only [tritanopiaM]
    rw [hb]
    norm_num [_delinearize_zero]
  · rw [simulate, if_neg (by decide), if_neg (by decide), if_pos rfl]
    dsimp only [tritanopiaM]
    rw [hw]
    rw [show ((1.0 : ℝ) * 1 + 0.127398900 * 1 + -0.127398900 * 1) = 1 by norm_num,
      show ((0.0 : ℝ) * 1 + 0.873909300 * 1 + 0.126090700 * 1) = 1 by norm_num,
      _delinearize_of_one_le 1 (by norm_num)]

/-! ### Theorems: temperature estimate (development facts for claim C9) -/

/-- The McCamy estimate is clamped into `[1000, 40000]` on every input. -/
theorem estimate_kelvin_clamped (r g b : ℤ) :
    1000 ≤ estimate_kelvin r g b ∧ estimate_kelvin r g b ≤ 40000 := by
  unfold estimate_kelvin
  dsimp only
  split
  · norm_num
  · exact ⟨le_max_left _ _, max_le (by norm_num) (min_le_left _ _)⟩

/-- The zero-total guard fires on black and returns the 1000 K floor. -/
theorem estimate_kelvin_black : estimate_kelvin 0 0 0 = 1000 := by
  unfold estimate_kelvin _linearize_v
  norm_num

end Colorbrew
